import Mathlib

/-!
Shallow embedding of the ZAPPY `pytorch_runner` package
(`config.py`, `trainer.py`, `main.py`).

Modelling conventions:
- Python `pathlib.Path` values (POSIX) are modelled by `PyPath`: an
  absolute flag plus the component list.  `Path` construction drops empty
  and `"."` components, exactly as `pathlib` does; `".."` components are
  kept.  `Path.resolve()` is modelled lexically against an explicit
  current working directory, assuming a symlink-free filesystem.
- JSON scalars produced by `json.load` are modelled by `JValue`
  (null / bool / int / float / str, with floats as exact rationals).
  Arrays and nested objects, which `from_file` never consumes
  successfully, are omitted; every conversion the loader applies to them
  raises `TypeError`, like `null`.  A top-level JSON object is an
  association list with distinct keys (duplicate keys in a JSON text
  collapse before `from_file` sees them).
- Python exceptions raised by the loader are modelled by `PyError`;
  `Except` threads them in the loader's left-to-right evaluation order.
- Wall-clock time is passed explicitly: the whole-second Unix timestamp
  as a `Nat` and the formatted time string; event-record timestamps,
  which no property mentions, are not modelled.
- The torch numeric computation (model forward/backward, optimiser) is
  external to the repository; its per-step scalar loss enters the model
  as an oracle `lossOf : Nat → Rat`.  The structure of the torch loop,
  its logging cadence, and the checkpoint write are modelled from the
  source.
-/

/-- POSIX path as modelled by `pathlib.PurePosixPath`: absolute flag and
component list (no empty or `"."` components after construction). -/
structure PyPath where
  absolute : Bool
  parts : List String
deriving DecidableEq

/-- Python `s.startswith(pre)`, as a character-level prefix test. -/
def strStartsWith (s pre : String) : Bool :=
  pre.data.isPrefixOf s.data

/-- `pathlib.Path(s)` for a string `s`: split on `/`, drop empty and `"."`
components, absolute iff the string starts with `/`. -/
def parsePath (s : String) : PyPath :=
  ⟨strStartsWith s "/", (s.splitOn "/").filter (fun c => c != "" && c != ".")⟩

/-- The `/` operator on paths: an absolute right operand replaces the left
operand, otherwise the component lists concatenate. -/
def PyPath.join (p q : PyPath) : PyPath :=
  if q.absolute then q else ⟨p.absolute, p.parts ++ q.parts⟩

/-- `Path.parent`: drop the last component (the parent of a root or of a
bare relative path is the path with no components, i.e. `/` or `.`). -/
def PyPath.parent (p : PyPath) : PyPath :=
  ⟨p.absolute, p.parts.dropLast⟩

/-- Lexical `..`-elimination over a component list, processing left to
right with an accumulator (`..` pops the last accumulated component). -/
def normPartsAux : List String → List String → List String
  | acc, [] => acc
  | acc, c :: rest =>
      if c = ".." then normPartsAux acc.dropLast rest
      else normPartsAux (acc ++ [c]) rest

def normParts (l : List String) : List String := normPartsAux [] l

/-- `Path.resolve()` against an explicit current working directory, on a
symlink-free filesystem: make the path absolute by prefixing `cwd` when
needed, then eliminate `..` lexically. -/
def normResolve (cwd p : PyPath) : PyPath :=
  let q := if p.absolute then p else cwd.join p
  ⟨q.absolute, normParts q.parts⟩

/-- `str(path)` for a `PyPath`. -/
def pathStr (p : PyPath) : String :=
  if p.parts = [] then (if p.absolute then "/" else ".")
  else (if p.absolute then "/" else "") ++ String.intercalate "/" p.parts

/-- JSON scalar values as `json.load` produces them (see module comment
for why arrays and nested objects are omitted). -/
inductive JValue
  | null
  | bool (b : Bool)
  | int (n : Int)
  | float (q : Rat)
  | str (s : String)
deriving DecidableEq

/-- Python exceptions the loader can raise. -/
inductive PyError
  | keyError (key : String)
  | typeError
  | valueError
  | indexError
deriving DecidableEq

/-- Lookup in a top-level JSON object (association list, distinct keys):
`data[k]` / `data.get(k)`. -/
def jGet (data : List (String × JValue)) (k : String) : Option JValue :=
  (data.find? (fun kv => kv.1 = k)).map (fun kv => kv.2)

/-- `data[k]`: `KeyError` when the key is absent. -/
def getRequired (data : List (String × JValue)) (k : String) :
    Except PyError JValue :=
  match jGet data k with
  | some v => .ok v
  | none => .error (.keyError k)

/-- `data.get(k, d)`: the stored value, or the default when absent. -/
def getDefault (data : List (String × JValue)) (k : String) (d : JValue) :
    JValue :=
  (jGet data k).getD d

/-- `data.get(k)` with Python's `None` identified with JSON `null`: absent
keys and stored nulls are indistinguishable to the Python caller. -/
def getOptional (data : List (String × JValue)) (k : String) :
    Option JValue :=
  match jGet data k with
  | some .null => none
  | some v => some v
  | none => none

/-- Numeric value of a digit string (caller guarantees digits only). -/
def digitsVal (cs : List Char) : Nat :=
  cs.foldl (fun a c => 10 * a + (c.toNat - 48)) 0

/-- Parse a non-empty all-digit character list. -/
def parseDigits (cs : List Char) : Option Nat :=
  if cs ≠ [] ∧ cs.all (fun c => c.isDigit) then some (digitsVal cs) else none

/-- Parse an optionally signed decimal integer literal. -/
def parseSignedDigits : List Char → Option Int
  | '+' :: rest => (parseDigits rest).map (fun n => (n : Int))
  | '-' :: rest => (parseDigits rest).map (fun n => -(n : Int))
  | rest => (parseDigits rest).map (fun n => (n : Int))

/-- Python `int(s)` on a string: strip whitespace, then an optionally
signed run of decimal digits; anything else is a `ValueError`.  (Digit
grouping underscores and non-ASCII digits are not modelled.) -/
def pyIntOfStr (s : String) : Except PyError Int :=
  match parseSignedDigits s.trim.data with
  | some n => .ok n
  | none => .error .valueError

/-- Truncation toward zero, as Python `int(float)`. -/
def ratTrunc (q : Rat) : Int :=
  if 0 ≤ q then ⌊q⌋ else ⌈q⌉

/-- Python `int(v)` on a JSON value: ints pass through, floats truncate
toward zero, bools map to 0/1, strings parse as decimal literals, and
`None` (with arrays/objects, see module comment) is a `TypeError`. -/
def pyInt : JValue → Except PyError Int
  | .int n => .ok n
  | .float q => .ok (ratTrunc q)
  | .bool b => .ok (if b then 1 else 0)
  | .str s => pyIntOfStr s
  | .null => .error .typeError

/-- Split a character list at the first `e`/`E`, for float literals. -/
def splitAtExp : List Char → List Char × Option (List Char)
  | [] => ([], none)
  | c :: rest =>
      if c = 'e' ∨ c = 'E' then ([], some rest)
      else
        let (m, ex) := splitAtExp rest
        (c :: m, ex)

/-- Split a character list at the first `.`, for float literals. -/
def splitAtDot : List Char → List Char × Option (List Char)
  | [] => ([], none)
  | c :: rest =>
      if c = '.' then ([], some rest)
      else
        let (m, f) := splitAtDot rest
        (c :: m, f)

/-- Parse an unsigned decimal mantissa `digits[.digits]`, `.digits` or
`digits.` as an exact rational. -/
def parseMantissa (cs : List Char) : Option Rat :=
  match splitAtDot cs with
  | (intPart, none) => (parseDigits intPart).map (fun n => (n : Rat))
  | (intPart, some fracPart) =>
      if intPart = [] ∧ fracPart = [] then none
      else if intPart.all (fun c => c.isDigit) ∧
              fracPart.all (fun c => c.isDigit) then
        some ((digitsVal intPart : Rat) +
          (digitsVal fracPart : Rat) / (10 : Rat) ^ fracPart.length)
      else none

/-- Scale by a signed power of ten (float-literal exponent). -/
def applyExp (q : Rat) (e : Int) : Rat :=
  if 0 ≤ e then q * (10 : Rat) ^ e.toNat else q / (10 : Rat) ^ (-e).toNat

/-- Parse an optionally signed decimal float literal with optional
exponent. -/
def parseFloatLit (cs : List Char) : Option Rat :=
  let (sign, body) :=
    match cs with
    | '+' :: rest => ((1 : Rat), rest)
    | '-' :: rest => ((-1 : Rat), rest)
    | rest => ((1 : Rat), rest)
  match splitAtExp body with
  | (mant, none) => (parseMantissa mant).map (fun q => sign * q)
  | (mant, some ex) => do
      let m ← parseMantissa mant
      let e ← parseSignedDigits ex
      pure (sign * applyExp m e)

/-- Python `float(s)` on a string: strip whitespace, then a decimal float
literal; anything else is a `ValueError`.  (`inf`/`nan` spellings and
underscores are not modelled.) -/
def pyFloatOfStr (s : String) : Except PyError Rat :=
  match parseFloatLit s.trim.data with
  | some q => .ok q
  | none => .error .valueError

/-- Python `float(v)` on a JSON value. -/
def pyFloat : JValue → Except PyError Rat
  | .float q => .ok q
  | .int n => .ok (n : Rat)
  | .bool b => .ok (if b then 1 else 0)
  | .str s => pyFloatOfStr s
  | .null => .error .typeError

/-- `pathlib.Path(v)` on a JSON value: only strings are accepted, every
other value raises `TypeError`. -/
def pyPathVal : JValue → Except PyError PyPath
  | .str s => .ok (parsePath s)
  | _ => .error .typeError

/-- `TrainingConfig._resolve(base, value)` applied to an already parsed
path: absolute paths pass through, relative ones are joined onto the
config file's parent directory and resolved (against `cwd`). -/
def resolveParsed (cwd base : PyPath) (p : PyPath) : PyPath :=
  if p.absolute then p else normResolve cwd (base.parent.join p)

/-- `TrainingConfig._resolve(base, value)` on the raw string value. -/
def pyResolve (cwd base : PyPath) (value : String) : PyPath :=
  resolveParsed cwd base (parsePath value)

/-- `_resolve` applied to a JSON value: `Path(value)` first (a
`TypeError` for non-strings), then the absolute/relative branch. -/
def resolveVal (cwd base : PyPath) (v : JValue) : Except PyError PyPath := do
  let p ← pyPathVal v
  pure (resolveParsed cwd base p)

/-- `TrainingConfig` with the field types the untyped Python loader
actually produces: `int()` can return any integer (no bounds are
checked), `float()` any rational, and `notes` carries whatever
`data.get("notes")` returned. -/
structure TrainingConfig where
  dataset_index : PyPath
  checkpoint_dir : PyPath
  steps : Int
  batch_size : Int
  learning_rate : Rat
  input_dim : Int
  output_dim : Int
  hidden_dim : Int
  notes : Option JValue
deriving DecidableEq

/-- `TrainingConfig.from_file` after `json.load` succeeded with top-level
object `data`; `path` is the config file path and `cwd` the process
working directory used by `resolve()`.  Field expressions are evaluated
in Python's left-to-right argument order, each failure aborting the
call. -/
def fromFileData (cwd path : PyPath) (data : List (String × JValue)) :
    Except PyError TrainingConfig := do
  let v₁ ← getRequired data "dataset_index"
  let dataset_index ← resolveVal cwd path v₁
  let v₂ ← getRequired data "checkpoint_dir"
  let checkpoint_dir ← resolveVal cwd path v₂
  let steps ← pyInt (getDefault data "steps" (.int 100))
  let batch_size ← pyInt (getDefault data "batch_size" (.int 32))
  let learning_rate ← pyFloat (getDefault data "learning_rate" (.float (1 / 1000)))
  let input_dim ← pyInt (getDefault data "input_dim" (.int 128))
  let output_dim ← pyInt (getDefault data "output_dim" (.int 64))
  let hidden_dim ← pyInt (getDefault data "hidden_dim" (.int 128))
  pure { dataset_index := dataset_index, checkpoint_dir := checkpoint_dir,
         steps := steps, batch_size := batch_size,
         learning_rate := learning_rate, input_dim := input_dim,
         output_dim := output_dim, hidden_dim := hidden_dim,
         notes := getOptional data "notes" }

/-- `RunnerContext` from `trainer.py`. -/
structure RunnerContext where
  config : TrainingConfig
  devices : List String
  weights : Option PyPath
  profile : String
  log_file : PyPath
deriving DecidableEq

/-- One event record appended by `TrainingSession._log` (the per-record
wall-clock timestamp is not modelled; payload fields are).  The torch
path's `step` payload has no `simulated` key, modelled as the flag being
`false`. -/
inductive Event
  | session_start (profile : String) (devices : List String)
  | step (idx : Nat) (loss : Rat) (simulated : Bool)
  | checkpoint (metaPath : String)
  | session_complete
deriving DecidableEq

/-- The record's event name. -/
inductive EventKind
  | session_start
  | step
  | checkpoint
  | session_complete
deriving DecidableEq

def Event.kind : Event → EventKind
  | .session_start _ _ => .session_start
  | .step _ _ _ => .step
  | .checkpoint _ => .checkpoint
  | .session_complete => .session_complete

/-- The step index of a record when it is a `step` record. -/
def idxProbe : Event → Option Nat
  | .step i _ _ => some i
  | _ => none

/-- The step indices carried by the `step` records of a log, in log
order. -/
def stepIndices (es : List Event) : List Nat :=
  es.filterMap idxProbe

/-- The loss of a record when it is a `step` record with index `i`. -/
def stepProbe (i : Nat) : Event → Option Rat
  | .step j l _ => if j = i then some l else none
  | _ => none

/-- The loss carried by the first `step` record with index `i`. -/
def stepLossAt (es : List Event) (i : Nat) : Option Rat :=
  es.findSome? (stepProbe i)

/-- The checkpoint metadata dict built by
`TrainingSession._write_checkpoint`. -/
structure CheckpointMeta where
  id : String
  model : String
  created_at : String
  training_step : Int
  devices : List String
  notes : Option JValue
deriving DecidableEq

/-- Everything `_write_checkpoint` does: the directory it ensures exists
(`mkdir(parents=True, exist_ok=True)`), the metadata file path, and the
metadata written there. -/
structure CheckpointWrite where
  ensureDir : PyPath
  metaPath : PyPath
  meta : CheckpointMeta
deriving DecidableEq

/-- `TrainingSession._write_checkpoint`, with the wall clock passed in:
`t` is `int(time.time())` (whole Unix seconds) and `tstr` the formatted
`created_at` string. -/
def writeCheckpoint (ctx : RunnerContext) (t : Nat) (tstr : String) :
    CheckpointWrite :=
  let id := "checkpoint-" ++ toString t
  { ensureDir := ctx.config.checkpoint_dir,
    metaPath := ctx.config.checkpoint_dir.join (parsePath (id ++ ".meta.json")),
    meta := { id := id, model := "pytorch_runner_stub", created_at := tstr,
              training_step := ctx.config.steps, devices := ctx.devices,
              notes := ctx.config.notes } }

/-- The loop body of `TrainingSession._simulate`: `n` iterations remain,
`step` is the current index, `loss` the running scalar.  Each iteration
first multiplies the loss by 0.99, then logs on every 10th index.  The
`time.sleep(0.01)` delay affects no modelled state. -/
def simEventsAux : Nat → Nat → Rat → List Event
  | 0, _, _ => []
  | n + 1, step, loss =>
      let loss₁ := loss * (99 / 100)
      (if step % 10 == 0 then [Event.step step loss₁ true] else []) ++
        simEventsAux n (step + 1) loss₁

/-- The `step` events of `_simulate` for a run of `n` steps (loss starts
at 1.0, index at 0). -/
def simEvents (n : Nat) : List Event := simEventsAux n 0 1

/-- The loop body of `TrainingSession._run_torch`: the numeric loss of
iteration `step` comes from the oracle `lossOf` (the torch computation is
outside the repository); logging cadence is every 10th index. -/
def torchEventsAux : Nat → Nat → (Nat → Rat) → List Event
  | 0, _, _ => []
  | n + 1, step, lossOf =>
      (if step % 10 == 0 then [Event.step step (lossOf step) false] else []) ++
        torchEventsAux n (step + 1) lossOf

/-- `TrainingSession.run`: the full event log and the checkpoint write of
one completed execution.  `torchAvailable` is the one-time capability
probe (`TORCH_AVAILABLE`), `lossOf` the torch loss oracle, `t`/`tstr` the
wall clock at checkpoint time.  `range(steps)` on a negative `steps` is
empty, hence `Int.toNat`. -/
def runResult (ctx : RunnerContext) (torchAvailable : Bool)
    (lossOf : Nat → Rat) (t : Nat) (tstr : String) :
    List Event × CheckpointWrite :=
  let start := Event.session_start ctx.profile ctx.devices
  if torchAvailable then
    let w := writeCheckpoint ctx t tstr
    (start :: (torchEventsAux ctx.config.steps.toNat 0 lossOf ++
        [Event.checkpoint (pathStr w.metaPath)]) ++ [Event.session_complete], w)
  else
    let w := writeCheckpoint ctx t tstr
    (start :: (simEventsAux ctx.config.steps.toNat 0 1 ++
        [Event.checkpoint (pathStr w.metaPath)]) ++ [Event.session_complete], w)

/-- `l[i]` with Python's `IndexError`. -/
def pyIndexList (l : List String) (i : Nat) : Except PyError String :=
  match l.get? i with
  | some x => .ok x
  | none => .error .indexError

/-- `TrainingSession._select_torch_device`, with
`torch.cuda.is_available()` passed as `cudaAvailable`.  Returns the
device string together with the value written to `CUDA_VISIBLE_DEVICES`
(`none` when the environment is left untouched); errors model Python
exceptions escaping the method. -/
def selectTorchDevice (devices : List String) (cudaAvailable : Bool) :
    Except PyError (String × Option String) :=
  match devices with
  | [] => .ok ("cpu", none)
  | preferred :: _ =>
      if strStartsWith preferred "cuda" && cudaAvailable then do
        let ordinal ←
          if preferred.contains ':' then pyIndexList (preferred.splitOn ":") 1
          else pure "0"
        pure ("cuda:0", some ordinal)
      else .ok ("cpu", none)

/-- Python `s.split(",")` on the character list of `s`: split at every
comma, keeping empty tokens (`"".split(",")` is `[""]`). -/
def pySplitComma : List Char → List (List Char)
  | [] => [[]]
  | c :: rest =>
      if c = ',' then [] :: pySplitComma rest
      else
        match pySplitComma rest with
        | t :: ts => (c :: t) :: ts
        | [] => [[c]]

/-- The device list `main` builds from the `--devices` string:
`[token for token in args.devices.split(",") if token]`. -/
def mainDevices (s : String) : List String :=
  ((pySplitComma s.data).filter (fun t => t ≠ [])).map (fun cs => String.mk cs)

/-! ### Characterisations of the two training loops -/

/-- The simulated loop starting at index `s` with running loss `loss`
logs exactly the multiples of 10 in `[s, s + n)`, and the loss logged at
index `i` is `loss * 0.99 ^ (i - s + 1)` (the multiplication precedes the
log). -/
theorem simEventsAux_eq (n : Nat) : ∀ (s : Nat) (loss : Rat),
    simEventsAux n s loss =
      ((List.range' s n).filter (fun i => i % 10 == 0)).map
        (fun i => Event.step i (loss * (99 / 100) ^ (i - s + 1)) true) := by
  induction n with
  | zero => intro s loss; rfl
  | succ n ih =>
    intro s loss
    have hmap :
        ((List.range' (s + 1) n).filter (fun i => i % 10 == 0)).map
          (fun i =>
            Event.step i (loss * (99 / 100) * (99 / 100) ^ (i - (s + 1) + 1)) true) =
        ((List.range' (s + 1) n).filter (fun i => i % 10 == 0)).map
          (fun i => Event.step i (loss * (99 / 100) ^ (i - s + 1)) true) := by
      apply List.map_congr_left
      intro i hi
      have hsi : s + 1 ≤ i := (List.mem_range'_1.mp (List.mem_of_mem_filter hi)).1
      have he : i - s + 1 = (i - (s + 1) + 1) + 1 := by omega
      rw [he, pow_succ]
      ring_nf
    show (if s % 10 == 0 then [Event.step s (loss * (99 / 100)) true] else []) ++
        simEventsAux n (s + 1) (loss * (99 / 100)) = _
    rw [ih, hmap, show List.range' s (n + 1) = s :: List.range' (s + 1) n from rfl,
      List.filter_cons]
    by_cases h : (s % 10 == 0) = true
    · simp [h, Nat.sub_self, pow_one]
    · simp [h]

/-- The torch loop starting at index `s` logs exactly the multiples of 10
in `[s, s + n)`, with the oracle loss of that index. -/
theorem torchEventsAux_eq (n : Nat) : ∀ (s : Nat) (lossOf : Nat → Rat),
    torchEventsAux n s lossOf =
      ((List.range' s n).filter (fun i => i % 10 == 0)).map
        (fun i => Event.step i (lossOf i) false) := by
  induction n with
  | zero => intro s lossOf; rfl
  | succ n ih =>
    intro s lossOf
    show (if s % 10 == 0 then [Event.step s (lossOf s) false] else []) ++
        torchEventsAux n (s + 1) lossOf = _
    rw [ih, show List.range' s (n + 1) = s :: List.range' (s + 1) n from rfl,
      List.filter_cons]
    by_cases h : (s % 10 == 0) = true
    · simp [h]
    · simp [h]

/-- Shape of the full event log on the simulated path. -/
theorem runResult_sim_fst (ctx : RunnerContext) (lossOf : Nat → Rat)
    (t : Nat) (tstr : String) :
    (runResult ctx false lossOf t tstr).1 =
      Event.session_start ctx.profile ctx.devices ::
        (((List.range ctx.config.steps.toNat).filter (fun i => i % 10 == 0)).map
            (fun i => Event.step i ((99 / 100) ^ (i + 1)) true) ++
          [Event.checkpoint (pathStr (writeCheckpoint ctx t tstr).metaPath)]) ++
        [Event.session_complete] := by
  show Event.session_start ctx.profile ctx.devices ::
      (simEventsAux ctx.config.steps.toNat 0 1 ++
        [Event.checkpoint (pathStr (writeCheckpoint ctx t tstr).metaPath)]) ++
      [Event.session_complete] = _
  rw [simEventsAux_eq, List.range_eq_range']
  have hmap : ∀ l : List Nat,
      l.map (fun i => Event.step i ((1 : Rat) * (99 / 100) ^ (i - 0 + 1)) true) =
        l.map (fun i => Event.step i ((99 / 100 : Rat) ^ (i + 1)) true) := by
    intro l
    apply List.map_congr_left
    intro i _
    simp [Nat.sub_zero, one_mul]
  rw [hmap]

/-- Shape of the full event log on the torch path. -/
theorem runResult_torch_fst (ctx : RunnerContext) (lossOf : Nat → Rat)
    (t : Nat) (tstr : String) :
    (runResult ctx true lossOf t tstr).1 =
      Event.session_start ctx.profile ctx.devices ::
        (((List.range ctx.config.steps.toNat).filter (fun i => i % 10 == 0)).map
            (fun i => Event.step i (lossOf i) false) ++
          [Event.checkpoint (pathStr (writeCheckpoint ctx t tstr).metaPath)]) ++
        [Event.session_complete] := by
  show Event.session_start ctx.profile ctx.devices ::
      (torchEventsAux ctx.config.steps.toNat 0 lossOf ++
        [Event.checkpoint (pathStr (writeCheckpoint ctx t tstr).metaPath)]) ++
      [Event.session_complete] = _
  rw [torchEventsAux_eq, List.range_eq_range']

/-! ### Locating step losses in a log -/

/-- A hit in the left part of an appended log is the overall hit. -/
theorem stepLossAt_append_left (es₁ es₂ : List Event) (i : Nat) (r : Rat)
    (h : stepLossAt es₁ i = some r) :
    stepLossAt (es₁ ++ es₂) i = some r := by
  induction es₁ with
  | nil => simp [stepLossAt] at h
  | cons e rest ih =>
    rw [List.cons_append]
    rw [stepLossAt, List.findSome?_cons] at h ⊢
    cases he : stepProbe i e with
    | some r₁ => simp [he] at h ⊢; exact h
    | none => simp [he] at h ⊢; exact ih h

/-- In a block of `step` records built over an index list, the first
record with index `i` carries `g i` whenever `i` occurs in the list. -/
theorem stepLossAt_map_mem (g : Nat → Rat) (b : Bool) (i : Nat) :
    ∀ l : List Nat, i ∈ l →
      stepLossAt (l.map (fun j => Event.step j (g j) b)) i = some (g i) := by
  intro l
  induction l with
  | nil => intro hi; cases hi
  | cons x rest ih =>
    intro hi
    rw [List.map_cons, stepLossAt, List.findSome?_cons]
    by_cases hx : x = i
    · subst hx
      simp [stepProbe]
    · have hmem : i ∈ rest := by
        rcases List.mem_cons.mp hi with h | h
        · exact absurd h.symm hx
        · exact h
      simpa [stepProbe, hx] using ih hmem

/-! ### Lexical `..`-elimination -/

/-- `normPartsAux` never emits a `..` component. -/
theorem dotdot_not_mem_normPartsAux :
    ∀ (l acc : List String), ".." ∉ acc → ".." ∉ normPartsAux acc l := by
  intro l
  induction l with
  | nil => intro acc h; simpa [normPartsAux] using h
  | cons c rest ih =>
    intro acc h
    by_cases hc : c = ".."
    · rw [normPartsAux, if_pos hc]
      exact ih _ (fun hm => h (List.Sublist.mem hm (List.dropLast_sublist acc)))
    · rw [normPartsAux, if_neg hc]
      refine ih _ (fun hm => ?_)
      rcases List.mem_append.mp hm with h₁ | h₂
      · exact h h₁
      · exact hc (List.mem_singleton.mp h₂).symm

/-- On a `..`-free component list, `normPartsAux` only appends. -/
theorem normPartsAux_no_dotdot :
    ∀ (l acc : List String), ".." ∉ l → normPartsAux acc l = acc ++ l := by
  intro l
  induction l with
  | nil => intro acc _; simp [normPartsAux]
  | cons c rest ih =>
    intro acc h
    have hc : c ≠ ".." := fun he => h (he ▸ List.mem_cons_self c rest)
    rw [normPartsAux, if_neg (fun he => hc he)]
    rw [ih _ (fun hm => h (List.mem_cons_of_mem c hm))]
    simp

/-- `..`-elimination is idempotent. -/
theorem normParts_idem (l : List String) :
    normParts (normParts l) = normParts l := by
  have h := dotdot_not_mem_normPartsAux l [] (by simp)
  show normPartsAux [] (normPartsAux [] l) = normPartsAux [] l
  rw [normPartsAux_no_dotdot _ [] h]
  rfl

/-- Resolving an already-resolved path against the same (absolute)
working directory changes nothing. -/
theorem normResolve_idem (cwd p : PyPath) (hcwd : cwd.absolute = true) :
    normResolve cwd (normResolve cwd p) = normResolve cwd p := by
  by_cases hp : p.absolute = true
  · simp only [normResolve, hp, if_true, if_pos]
    rw [normParts_idem]
  · have hp' : p.absolute = false := by
      cases h : p.absolute
      · rfl
      · exact absurd h hp
    simp only [normResolve, hp', PyPath.join, if_neg, Bool.false_eq_true,
      if_false, hcwd, if_true]
    rw [normParts_idem]

/-! ### Comma splitting -/

/-- Splitting a string of commas yields only empty tokens. -/
theorem pySplitComma_all_commas :
    ∀ cs : List Char, (∀ c ∈ cs, c = ',') →
      (pySplitComma cs).filter (fun t => t ≠ []) = [] := by
  intro cs
  induction cs with
  | nil => intro _; simp [pySplitComma]
  | cons c rest ih =>
    intro h
    have hc : c = ',' := h c (List.mem_cons_self c rest)
    rw [pySplitComma, if_pos hc, List.filter_cons]
    have hrest := ih (fun d hd => h d (List.mem_cons_of_mem c hd))
    simpa using hrest

/-! ### Evaluating the config loader -/

/-- When both required fields are present as strings and every optional
field parses, the loader succeeds with the parsed values (and no bounds
check of any kind). -/
theorem fromFileData_ok (cwd path : PyPath) (data : List (String × JValue))
    (ds cs : String) (st ba inp outp hid : Int) (lr : Rat)
    (h₁ : jGet data "dataset_index" = some (.str ds))
    (h₂ : jGet data "checkpoint_dir" = some (.str cs))
    (h₃ : pyInt (getDefault data "steps" (.int 100)) = .ok st)
    (h₄ : pyInt (getDefault data "batch_size" (.int 32)) = .ok ba)
    (h₅ : pyFloat (getDefault data "learning_rate" (.float (1 / 1000))) = .ok lr)
    (h₆ : pyInt (getDefault data "input_dim" (.int 128)) = .ok inp)
    (h₇ : pyInt (getDefault data "output_dim" (.int 64)) = .ok outp)
    (h₈ : pyInt (getDefault data "hidden_dim" (.int 128)) = .ok hid) :
    fromFileData cwd path data = .ok
      { dataset_index := pyResolve cwd path ds,
        checkpoint_dir := pyResolve cwd path cs,
        steps := st, batch_size := ba, learning_rate := lr,
        input_dim := inp, output_dim := outp, hidden_dim := hid,
        notes := getOptional data "notes" } := by
  simp only [one_div] at h₅
  simp [fromFileData, getRequired, h₁, h₂, h₃, h₄, h₅, h₆, h₇, h₈,
    resolveVal, pyPathVal, pyResolve, resolveParsed, Bind.bind, Except.bind,
    pure, Except.pure]

/-- A missing `dataset_index` aborts the loader with its `KeyError`. -/
theorem fromFileData_missing_dataset (cwd path : PyPath)
    (data : List (String × JValue))
    (h : jGet data "dataset_index" = none) :
    fromFileData cwd path data = .error (.keyError "dataset_index") := by
  simp [fromFileData, getRequired, h, Bind.bind, Except.bind]

/-- A missing `checkpoint_dir` means the loader cannot succeed. -/
theorem fromFileData_missing_checkpoint (cwd path : PyPath)
    (data : List (String × JValue))
    (h : jGet data "checkpoint_dir" = none) :
    ∃ e, fromFileData cwd path data = .error e := by
  cases hv : jGet data "dataset_index" with
  | none => exact ⟨_, fromFileData_missing_dataset cwd path data hv⟩
  | some v =>
    cases v with
    | null =>
      exact ⟨.typeError, by
        simp [fromFileData, getRequired, hv, resolveVal, pyPathVal,
          Bind.bind, Except.bind]⟩
    | bool b =>
      exact ⟨.typeError, by
        simp [fromFileData, getRequired, hv, resolveVal, pyPathVal,
          Bind.bind, Except.bind]⟩
    | int n =>
      exact ⟨.typeError, by
        simp [fromFileData, getRequired, hv, resolveVal, pyPathVal,
          Bind.bind, Except.bind]⟩
    | float q =>
      exact ⟨.typeError, by
        simp [fromFileData, getRequired, hv, resolveVal, pyPathVal,
          Bind.bind, Except.bind]⟩
    | str s =>
      exact ⟨.keyError "checkpoint_dir", by
        simp [fromFileData, getRequired, hv, h, resolveVal, pyPathVal,
          Bind.bind, Except.bind, pure, Except.pure]⟩

/-! ### Claim theorems -/

/-- C3: for every configuration and every completed execution of
`run()`, the `training_step` field of the written checkpoint metadata
equals the configuration's step count, on both the real and the
simulated backend path, including when the step count is 0. -/
theorem checkpoint_training_step (ctx : RunnerContext)
    (torchAvailable : Bool) (lossOf : Nat → Rat) (t : Nat) (tstr : String) :
    ((runResult ctx torchAvailable lossOf t tstr).2).meta.training_step =
      ctx.config.steps := by
  cases torchAvailable <;> rfl

/-- C9: for every completed run, the checkpoint identifier is the
constant prefix `checkpoint-` followed by the whole-second Unix
timestamp at write time, the metadata goes to `<id>.meta.json` inside
the configuration's checkpoint directory (which the writer ensures
exists), and two runs writing within the same second produce the same
identifier. -/
theorem checkpoint_id_spec (ctx : RunnerContext) (t : Nat) (tstr : String) :
    (writeCheckpoint ctx t tstr).meta.id = "checkpoint-" ++ toString t ∧
    (writeCheckpoint ctx t tstr).metaPath =
      ctx.config.checkpoint_dir.join
        (parsePath (("checkpoint-" ++ toString t) ++ ".meta.json")) ∧
    (writeCheckpoint ctx t tstr).ensureDir = ctx.config.checkpoint_dir ∧
    ∀ (ctx₂ : RunnerContext) (tstr₂ : String),
      (writeCheckpoint ctx₂ t tstr₂).meta.id =
        (writeCheckpoint ctx t tstr).meta.id :=
  ⟨rfl, rfl, rfl, fun _ _ => rfl⟩

/-- C6: for every device list whose first entry names an accelerator
(starts with `cuda`), when no accelerator is available the device
selection raises no error, selects the default `cpu` device, and leaves
`CUDA_VISIBLE_DEVICES` untouched. -/
theorem select_device_fallback (devices : List String) (d : String)
    (rest : List String) (hd : devices = d :: rest)
    (_hcuda : strStartsWith d "cuda" = true) :
    selectTorchDevice devices false = .ok ("cpu", none) := by
  subst hd
  simp [selectTorchDevice]

/-- Witness for C6 at the concrete device list `["cuda:0"]`. -/
theorem select_device_fallback_witness :
    selectTorchDevice ["cuda:0"] false = .ok ("cpu", none) :=
  select_device_fallback ["cuda:0"] "cuda:0" [] rfl (by decide)

/-- C10: the device list handed to the session is the comma-split of the
`--devices` string with every empty token removed: `"cuda:0,,cpu"`
yields `["cuda:0", "cpu"]`, the empty string yields `[]`, and any
string consisting solely of commas yields `[]`. -/
theorem devices_split_spec :
    mainDevices "cuda:0,,cpu" = ["cuda:0", "cpu"] ∧
    mainDevices "" = [] ∧
    ∀ s : String, (∀ c ∈ s.data, c = ',') → mainDevices s = [] := by
  refine ⟨by decide, by decide, fun s h => ?_⟩
  rw [mainDevices, pySplitComma_all_commas s.data h]
  rfl

/-- Witness for C10 at the all-comma string `",,,"`. -/
theorem devices_split_spec_witness : mainDevices ",,," = [] :=
  devices_split_spec.2.2 ",,," (by decide)

/-- C4 counterexample: a configuration file whose `batch_size` is 0
still produces a `TrainingConfig`, and its `batch_size` field is 0,
violating the claimed bound `batch_size > 0`. -/
theorem from_file_no_validation_cex :
    Except.map (fun c => c.batch_size)
      (fromFileData ⟨true, ["w"]⟩ ⟨true, ["conf", "run.json"]⟩
        [("dataset_index", .str "d"), ("checkpoint_dir", .str "c"),
         ("batch_size", .int 0)]) = .ok 0 := by
  rfl

/-- C4 amended: `TrainingConfig.from_file` performs no bounds validation
at all: whenever the required fields are present as strings, any integer
values supplied for step count, batch size and the dimensions, and any
float supplied for the learning rate — zero or negative included —
produce a `TrainingConfig` carrying exactly those values. -/
theorem from_file_no_validation (cwd path : PyPath) (ds cs : String)
    (st ba inp outp hid : Int) (lr : Rat) :
    fromFileData cwd path
      [("dataset_index", .str ds), ("checkpoint_dir", .str cs),
       ("steps", .int st), ("batch_size", .int ba),
       ("learning_rate", .float lr), ("input_dim", .int inp),
       ("output_dim", .int outp), ("hidden_dim", .int hid)] =
      .ok { dataset_index := pyResolve cwd path ds,
            checkpoint_dir := pyResolve cwd path cs,
            steps := st, batch_size := ba, learning_rate := lr,
            input_dim := inp, output_dim := outp, hidden_dim := hid,
            notes := none } :=
  fromFileData_ok cwd path _ ds cs st ba inp outp hid lr
    rfl rfl rfl rfl rfl rfl rfl rfl

/-- C8 counterexample: a well-formed JSON object containing both
required fields but a `null` value for `steps` makes the loader fail
(Python's `int(None)` raises `TypeError`), so presence of the two
required fields alone does not guarantee success. -/
theorem from_file_unparsable_cex :
    fromFileData ⟨true, ["w"]⟩ ⟨true, ["conf", "run.json"]⟩
      [("dataset_index", .str "d"), ("checkpoint_dir", .str "c"),
       ("steps", .null)] = .error .typeError := by
  rfl

/-- C8 amended: the loader fails for every object lacking
`dataset_index` (with its `KeyError`) and for every object lacking
`checkpoint_dir`; it succeeds when both required fields are present as
strings and every present optional field parses to its declared type,
and when the optional fields are absent it fills the defaults
`steps = 100`, `batch_size = 32`, `learning_rate = 0.001`,
`input_dim = 128`, `output_dim = 64`, `hidden_dim = 128`, `notes`
absent. -/
theorem from_file_required_and_defaults (cwd path : PyPath)
    (data : List (String × JValue)) (ds cs : String)
    (st ba inp outp hid : Int) (lr : Rat) :
    (jGet data "dataset_index" = none →
      fromFileData cwd path data = .error (.keyError "dataset_index")) ∧
    (jGet data "checkpoint_dir" = none →
      ∃ e, fromFileData cwd path data = .error e) ∧
    (jGet data "dataset_index" = some (.str ds) →
      jGet data "checkpoint_dir" = some (.str cs) →
      pyInt (getDefault data "steps" (.int 100)) = .ok st →
      pyInt (getDefault data "batch_size" (.int 32)) = .ok ba →
      pyFloat (getDefault data "learning_rate" (.float (1 / 1000))) = .ok lr →
      pyInt (getDefault data "input_dim" (.int 128)) = .ok inp →
      pyInt (getDefault data "output_dim" (.int 64)) = .ok outp →
      pyInt (getDefault data "hidden_dim" (.int 128)) = .ok hid →
      fromFileData cwd path data = .ok
        { dataset_index := pyResolve cwd path ds,
          checkpoint_dir := pyResolve cwd path cs,
          steps := st, batch_size := ba, learning_rate := lr,
          input_dim := inp, output_dim := outp, hidden_dim := hid,
          notes := getOptional data "notes" }) ∧
    (jGet data "dataset_index" = some (.str ds) →
      jGet data "checkpoint_dir" = some (.str cs) →
      jGet data "steps" = none → jGet data "batch_size" = none →
      jGet data "learning_rate" = none → jGet data "input_dim" = none →
      jGet data "output_dim" = none → jGet data "hidden_dim" = none →
      jGet data "notes" = none →
      fromFileData cwd path data = .ok
        { dataset_index := pyResolve cwd path ds,
          checkpoint_dir := pyResolve cwd path cs,
          steps := 100, batch_size := 32, learning_rate := 1 / 1000,
          input_dim := 128, output_dim := 64, hidden_dim := 128,
          notes := none }) := by
  refine ⟨fromFileData_missing_dataset cwd path data,
    fromFileData_missing_checkpoint cwd path data,
    fromFileData_ok cwd path data ds cs st ba inp outp hid lr, ?_⟩
  intro h₁ h₂ h₃ h₄ h₅ h₆ h₇ h₈ h₉
  have hok := fromFileData_ok cwd path data ds cs 100 32 128 64 128 (1 / 1000)
    h₁ h₂
    (by rw [getDefault, h₃]; rfl) (by rw [getDefault, h₄]; rfl)
    (by rw [getDefault, h₅]; rfl) (by rw [getDefault, h₆]; rfl)
    (by rw [getDefault, h₇]; rfl) (by rw [getDefault, h₈]; rfl)
  rw [hok]
  simp [getOptional, h₉]

/-- Witness for C8 at two concrete objects: the empty object (missing
`dataset_index`) and the minimal object with only the two required
fields (defaults filled). -/
theorem from_file_required_and_defaults_witness :
    fromFileData ⟨true, ["w"]⟩ ⟨true, ["conf", "run.json"]⟩ [] =
      .error (.keyError "dataset_index") ∧
    fromFileData ⟨true, ["w"]⟩ ⟨true, ["conf", "run.json"]⟩
      [("dataset_index", .str "d"), ("checkpoint_dir", .str "c")] =
      .ok { dataset_index :=
              pyResolve ⟨true, ["w"]⟩ ⟨true, ["conf", "run.json"]⟩ "d",
            checkpoint_dir :=
              pyResolve ⟨true, ["w"]⟩ ⟨true, ["conf", "run.json"]⟩ "c",
            steps := 100, batch_size := 32, learning_rate := 1 / 1000,
            input_dim := 128, output_dim := 64, hidden_dim := 128,
            notes := none } :=
  ⟨(from_file_required_and_defaults ⟨true, ["w"]⟩ ⟨true, ["conf", "run.json"]⟩
      [] "d" "c" 0 0 0 0 0 0).1 rfl,
   (from_file_required_and_defaults ⟨true, ["w"]⟩ ⟨true, ["conf", "run.json"]⟩
      [("dataset_index", .str "d"), ("checkpoint_dir", .str "c")]
      "d" "c" 0 0 0 0 0 0).2.2.2 rfl rfl rfl rfl rfl rfl rfl rfl rfl⟩

/-- A block of `step` records carries back exactly its index list. -/
theorem idxProbe_map_step (g : Nat → Rat) (b : Bool) :
    ∀ l : List Nat,
      (l.map (fun j => Event.step j (g j) b)).filterMap idxProbe = l := by
  intro l
  induction l with
  | nil => rfl
  | cons x rest ih => simp [List.filterMap_cons, idxProbe, ih]

/-- C2: for every configuration and every completed execution of
`run()`, on either backend path, the log holds exactly one
`session_start`, exactly one `checkpoint` and exactly one
`session_complete` — `session_start` first, `session_complete` last,
all `step` records between `session_start` and `checkpoint` — and the
step indices are strictly increasing. -/
theorem run_event_order (ctx : RunnerContext) (torchAvailable : Bool)
    (lossOf : Nat → Rat) (t : Nat) (tstr : String) :
    ∃ k, ((runResult ctx torchAvailable lossOf t tstr).1).map Event.kind =
        EventKind.session_start ::
          (List.replicate k EventKind.step ++
            [EventKind.checkpoint, EventKind.session_complete]) ∧
      (stepIndices ((runResult ctx torchAvailable lossOf t tstr).1)).Pairwise
        (· < ·) := by
  have hstep : ∀ (g : Nat → Rat) (b : Bool) (es : List Event),
      (runResult ctx torchAvailable lossOf t tstr).1 =
        (Event.session_start ctx.profile ctx.devices ::
          (((List.range ctx.config.steps.toNat).filter
              (fun i => i % 10 == 0)).map (fun i => Event.step i (g i) b) ++
            [Event.checkpoint
              (pathStr (writeCheckpoint ctx t tstr).metaPath)])) ++
          [Event.session_complete] →
      ∃ k, ((runResult ctx torchAvailable lossOf t tstr).1).map Event.kind =
          EventKind.session_start ::
            (List.replicate k EventKind.step ++
              [EventKind.checkpoint, EventKind.session_complete]) ∧
        (stepIndices ((runResult ctx torchAvailable lossOf t tstr).1)).Pairwise
          (· < ·) := by
    intro g b es heq
    refine ⟨((List.range ctx.config.steps.toNat).filter
      (fun i => i % 10 == 0)).length, ?_, ?_⟩
    · rw [heq]
      simp only [List.map_append, List.map_cons, List.map_nil, List.map_map]
      have hk : (Event.kind ∘ fun i => Event.step i (g i) b) =
          (fun _ => EventKind.step) := rfl
      rw [hk, List.map_const']
      simp [Event.kind]
    · rw [heq, stepIndices]
      simp only [List.filterMap_append, List.filterMap_cons, idxProbe,
        idxProbe_map_step]
      simpa using
        (List.pairwise_lt_range ctx.config.steps.toNat).filter
          (fun i => i % 10 == 0)
  cases torchAvailable
  case false =>
    exact hstep (fun i => (99 / 100 : Rat) ^ (i + 1)) true []
      (runResult_sim_fst ctx lossOf t tstr)
  case true =>
    exact hstep lossOf false [] (runResult_torch_fst ctx lossOf t tstr)

/-- On the simulated path, the logged loss at a logged index `i` is
`0.99 ^ (i + 1)`: the loop multiplies the loss before logging it. -/
theorem stepLossAt_runResult_sim (ctx : RunnerContext) (lossOf : Nat → Rat)
    (t : Nat) (tstr : String) (i : Nat)
    (hi : i < ctx.config.steps.toNat) (hmod : i % 10 = 0) :
    stepLossAt ((runResult ctx false lossOf t tstr).1) i =
      some ((99 / 100 : Rat) ^ (i + 1)) := by
  rw [runResult_sim_fst]
  have hmem : i ∈ (List.range ctx.config.steps.toNat).filter
      (fun j => j % 10 == 0) :=
    List.mem_filter.mpr ⟨List.mem_range.mpr hi, by simp [hmod]⟩
  have h₁ := stepLossAt_map_mem (fun j => (99 / 100 : Rat) ^ (j + 1)) true i _
    hmem
  have h₂ := stepLossAt_append_left _
    [Event.checkpoint (pathStr (writeCheckpoint ctx t tstr).metaPath)] i _ h₁
  have h₃ : stepLossAt (Event.session_start ctx.profile ctx.devices ::
      (((List.range ctx.config.steps.toNat).filter (fun j => j % 10 == 0)).map
        (fun j => Event.step j ((99 / 100 : Rat) ^ (j + 1)) true) ++
        [Event.checkpoint (pathStr (writeCheckpoint ctx t tstr).metaPath)])) i =
      some ((99 / 100 : Rat) ^ (i + 1)) := by
    rw [stepLossAt, List.findSome?_cons]
    simpa [stepProbe, stepLossAt] using h₂
  exact stepLossAt_append_left _ [Event.session_complete] i _ h₃

/-- C1 counterexample: on the simulated path with 11 steps, the `step`
event at index 0 carries loss 0.99, not `1.0 * 0.99 ^ 0 = 1.0` — the
loss is multiplied before it is logged. -/
theorem sim_loss_claim_false :
    stepLossAt
      ((runResult
        { config := { dataset_index := ⟨true, ["data"]⟩,
                      checkpoint_dir := ⟨true, ["ckpt"]⟩,
                      steps := 11, batch_size := 4,
                      learning_rate := 1 / 1000, input_dim := 8,
                      output_dim := 4, hidden_dim := 16, notes := none },
          devices := [], weights := none, profile := "prod",
          log_file := ⟨true, ["log"]⟩ }
        false (fun _ => 0) 0 "1970-01-01T00:00:00Z").1) 0 =
      some (99 / 100) ∧
    (99 / 100 : Rat) ≠ 1 := by
  constructor
  · have h := stepLossAt_runResult_sim
      { config := { dataset_index := ⟨true, ["data"]⟩,
                    checkpoint_dir := ⟨true, ["ckpt"]⟩,
                    steps := 11, batch_size := 4,
                    learning_rate := 1 / 1000, input_dim := 8,
                    output_dim := 4, hidden_dim := 16, notes := none },
        devices := [], weights := none, profile := "prod",
        log_file := ⟨true, ["log"]⟩ }
      (fun _ => 0) 0 "1970-01-01T00:00:00Z" 0 (by decide) (by decide)
    simpa [pow_one] using h
  · norm_num

/-- C1 amended: on the simulated path the `step` event logged at index
`i` carries loss `0.99 ^ (i + 1)` exactly (the code multiplies the loss
by 0.99 before logging); in particular index 0 carries 0.99 and index
10 carries `0.99 ^ 11`. -/
theorem sim_loss_formula (ctx : RunnerContext) (lossOf : Nat → Rat)
    (t : Nat) (tstr : String) (i : Nat)
    (hi : i < ctx.config.steps.toNat) (hmod : i % 10 = 0) :
    stepLossAt ((runResult ctx false lossOf t tstr).1) i =
      some ((99 / 100 : Rat) ^ (i + 1)) :=
  stepLossAt_runResult_sim ctx lossOf t tstr i hi hmod

/-- Witness for C1 (amended) at a run of 20 steps, index 10. -/
theorem sim_loss_formula_witness :
    stepLossAt
      ((runResult
        { config := { dataset_index := ⟨true, ["data"]⟩,
                      checkpoint_dir := ⟨true, ["ckpt"]⟩,
                      steps := 20, batch_size := 4,
                      learning_rate := 1 / 1000, input_dim := 8,
                      output_dim := 4, hidden_dim := 16, notes := none },
          devices := [], weights := none, profile := "prod",
          log_file := ⟨true, ["log"]⟩ }
        false (fun _ => 0) 0 "1970-01-01T00:00:00Z").1) 10 =
      some ((99 / 100 : Rat) ^ 11) :=
  sim_loss_formula
    { config := { dataset_index := ⟨true, ["data"]⟩,
                  checkpoint_dir := ⟨true, ["ckpt"]⟩,
                  steps := 20, batch_size := 4,
                  learning_rate := 1 / 1000, input_dim := 8,
                  output_dim := 4, hidden_dim := 16, notes := none },
      devices := [], weights := none, profile := "prod",
      log_file := ⟨true, ["log"]⟩ }
    (fun _ => 0) 0 "1970-01-01T00:00:00Z" 10 (by decide) (by decide)

/-- C5: for every config file path and every relative `dataset_index` /
`checkpoint_dir` value, `from_file` resolves the value to the file's
containing directory joined with the value (as a filesystem location:
the code normalises the joined path with `resolve()`, which denotes the
same location on a symlink-free filesystem); an absolute value passes
through unchanged. -/
theorem resolve_spec (cwd base : PyPath) (v : String)
    (hcwd : cwd.absolute = true) :
    ((parsePath v).absolute = true → pyResolve cwd base v = parsePath v) ∧
    ((parsePath v).absolute = false →
      normResolve cwd (pyResolve cwd base v) =
        normResolve cwd (base.parent.join (parsePath v))) := by
  constructor
  · intro h
    rw [pyResolve, resolveParsed, if_pos h]
  · intro h
    rw [pyResolve, resolveParsed, if_neg (by simp [h])]
    exact normResolve_idem cwd _ hcwd

/-- Witness for C5: an absolute value passes through; the relative value
`a/../b` in `/conf/run.json` denotes `/conf/b`, the same location as
`/conf` joined with `a/../b`. -/
theorem resolve_spec_witness :
    pyResolve ⟨true, ["w"]⟩ ⟨true, ["conf", "run.json"]⟩ "/idx/f.bin" =
      parsePath "/idx/f.bin" ∧
    normResolve ⟨true, ["w"]⟩
        (pyResolve ⟨true, ["w"]⟩ ⟨true, ["conf", "run.json"]⟩ "a/../b") =
      normResolve ⟨true, ["w"]⟩
        ((PyPath.parent ⟨true, ["conf", "run.json"]⟩).join
          (parsePath "a/../b")) :=
  ⟨(resolve_spec ⟨true, ["w"]⟩ ⟨true, ["conf", "run.json"]⟩ "/idx/f.bin"
      rfl).1 (by decide),
   (resolve_spec ⟨true, ["w"]⟩ ⟨true, ["conf", "run.json"]⟩ "a/../b"
      rfl).2 (by decide)⟩

/-- A `step` record with index `i` occurs in a run-shaped log exactly
when `i` occurs in the index list of its step block. -/
theorem step_mem_shape_iff (p : String) (ds : List String) (g : Nat → Rat)
    (bb : Bool) (mp : String) (l : List Nat) (i : Nat) :
    (∃ ls b, Event.step i ls b ∈
      (Event.session_start p ds ::
        (l.map (fun j => Event.step j (g j) bb) ++ [Event.checkpoint mp])) ++
      [Event.session_complete]) ↔ i ∈ l := by
  constructor
  · rintro ⟨ls, b, hmem⟩
    rcases List.mem_append.mp hmem with h | h
    · rcases List.mem_cons.mp h with h | h
      · exact Event.noConfusion h
      · rcases List.mem_append.mp h with h | h
        · rcases List.mem_map.mp h with ⟨a, ha, heq2⟩
          obtain ⟨hai, -, -⟩ := (Event.step.injEq _ _ _ _ _ _).mp heq2
          exact hai ▸ ha
        · exact Event.noConfusion (List.mem_singleton.mp h)
    · exact Event.noConfusion (List.mem_singleton.mp h)
  · intro hi
    refine ⟨g i, bb, ?_⟩
    apply List.mem_append_left
    apply List.mem_cons_of_mem
    apply List.mem_append_left
    exact List.mem_map.mpr ⟨i, hi, rfl⟩

/-- C7: on the simulated path with step count `n`, `step` events occur
exactly at the indices in `{0, ..., n - 1}` that are multiples of 10;
with step count 0 the log is exactly `session_start`, `checkpoint`,
`session_complete` and holds zero `step` events. -/
theorem sim_step_indices (ctx : RunnerContext) (lossOf : Nat → Rat)
    (t : Nat) (tstr : String) (n i : Nat)
    (hn : ctx.config.steps = (n : Int)) :
    ((∃ l b, Event.step i l b ∈ (runResult ctx false lossOf t tstr).1) ↔
      (i < n ∧ i % 10 = 0)) ∧
    (n = 0 → ((runResult ctx false lossOf t tstr).1).map Event.kind =
      [EventKind.session_start, EventKind.checkpoint,
        EventKind.session_complete]) := by
  have htn : ctx.config.steps.toNat = n := by
    rw [hn]
    exact Int.toNat_natCast n
  constructor
  · rw [runResult_sim_fst, htn, step_mem_shape_iff]
    simp [List.mem_filter, List.mem_range]
  · intro h0
    rw [runResult_sim_fst, htn, h0]
    simp [Event.kind]

/-- Witness for C7 at a concrete configuration with step count 0. -/
theorem sim_step_indices_witness :
    ((∃ l b, Event.step 0 l b ∈
        (runResult
          { config := { dataset_index := ⟨true, ["data"]⟩,
                        checkpoint_dir := ⟨true, ["ckpt"]⟩,
                        steps := 0, batch_size := 4,
                        learning_rate := 1 / 1000, input_dim := 8,
                        output_dim := 4, hidden_dim := 16, notes := none },
            devices := [], weights := none, profile := "prod",
            log_file := ⟨true, ["log"]⟩ }
          false (fun _ => 0) 0 "1970-01-01T00:00:00Z").1) ↔
      (0 < 0 ∧ 0 % 10 = 0)) ∧
    ((runResult
        { config := { dataset_index := ⟨true, ["data"]⟩,
                      checkpoint_dir := ⟨true, ["ckpt"]⟩,
                      steps := 0, batch_size := 4,
                      learning_rate := 1 / 1000, input_dim := 8,
                      output_dim := 4, hidden_dim := 16, notes := none },
          devices := [], weights := none, profile := "prod",
          log_file := ⟨true, ["log"]⟩ }
        false (fun _ => 0) 0 "1970-01-01T00:00:00Z").1).map Event.kind =
      [EventKind.session_start, EventKind.checkpoint,
        EventKind.session_complete] :=
  ⟨(sim_step_indices
      { config := { dataset_index := ⟨true, ["data"]⟩,
                    checkpoint_dir := ⟨true, ["ckpt"]⟩,
                    steps := 0, batch_size := 4,
                    learning_rate := 1 / 1000, input_dim := 8,
                    output_dim := 4, hidden_dim := 16, notes := none },
        devices := [], weights := none, profile := "prod",
        log_file := ⟨true, ["log"]⟩ }
      (fun _ => 0) 0 "1970-01-01T00:00:00Z" 0 0 rfl).1,
   (sim_step_indices
      { config := { dataset_index := ⟨true, ["data"]⟩,
                    checkpoint_dir := ⟨true, ["ckpt"]⟩,
                    steps := 0, batch_size := 4,
                    learning_rate := 1 / 1000, input_dim := 8,
                    output_dim := 4, hidden_dim := 16, notes := none },
        devices := [], weights := none, profile := "prod",
        log_file := ⟨true, ["log"]⟩ }
      (fun _ => 0) 0 "1970-01-01T00:00:00Z" 0 0 rfl).2 rfl⟩
